import Mathlib

/-!
Verification of the company web-scraper and fuzzy matcher (`main.py`).

The development shallowly embeds the repository's Python code:

* JSON-like Python values (`Val`), their truthiness, `str()` and iteration
  protocol, as used by the matcher on loaded profile records;
* the standard library `difflib.SequenceMatcher.ratio` similarity measure
  (Ratcliff/Obershelp longest-matching-blocks ratio) used by
  `string_similarity`;
* the matcher `best_match` and the query endpoint body `company_search`;
* the HTML-tree fragment of BeautifulSoup needed by `extract_address`
  (`find`, `find_all` with a class/id regex filter, `get_text`);
* the scraper `scrape_site` (candidate-URL generation, the nested
  retry loop over candidates and attempts, the fail/ok result shape),
  the batch orchestrator `batch_scrape` and the statistics function
  `analyze_results`.

Network fetching, HTML parsing and the two regex/phonenumbers extractors
are external effects; they are passed to `scrape_site` as explicit function
parameters, so every theorem about the scraper quantifies over them.
-/

namespace WebScraper

/-- A Python/JSON value as stored in a loaded profile record. -/
inductive Val where
  | vNull : Val
  | vBool : Bool → Val
  | vNum : ℚ → Val
  | vStr : String → Val
  | vList : List Val → Val
  | vDict : List (String × Val) → Val
deriving Repr

/-- Python truthiness of a value (`bool(v)`). -/
def vTruthy : Val → Bool
  | .vNull => false
  | .vBool b => b
  | .vNum q => q ≠ 0
  | .vStr s => s ≠ ""
  | .vList l => ¬ l.isEmpty
  | .vDict d => ¬ d.isEmpty

/-- A single-quote character, used by the Python `repr` of strings. -/
def quoteChar : Char := Char.ofNat 39

mutual
/-- Python `repr` of a value (only the simple cases are exercised). -/
def pyRepr : Val → String
  | .vNull => "None"
  | .vBool b => if b then "True" else "False"
  | .vNum q => if q.den = 1 then toString q.num else toString q
  | .vStr s => String.singleton quoteChar ++ s ++ String.singleton quoteChar
  | .vList l => "[" ++ pyReprList l ++ "]"
  | .vDict d => "\x7b" ++ pyReprDict d ++ "\x7d"

def pyReprList : List Val → String
  | [] => ""
  | [v] => pyRepr v
  | v :: vs => pyRepr v ++ ", " ++ pyReprList vs

def pyReprDict : List (String × Val) → String
  | [] => ""
  | [(k, v)] => String.singleton quoteChar ++ k ++ String.singleton quoteChar ++ ": " ++ pyRepr v
  | (k, v) :: ps =>
      String.singleton quoteChar ++ k ++ String.singleton quoteChar ++ ": " ++ pyRepr v
        ++ ", " ++ pyReprDict ps
end

/-- Python `str()` of a value. -/
def pyStr : Val → String
  | .vStr s => s
  | v => pyRepr v

/-- The Python iteration protocol: `for x in v` yields these items, or
raises `TypeError` (`none`) when `v` is not iterable (numbers, booleans,
`None`). Strings yield their characters, dicts their keys. -/
def pyIter : Val → Option (List Val)
  | .vList l => some l
  | .vStr s => some (s.toList.map (fun c => Val.vStr (String.singleton c)))
  | .vDict d => some (d.map (fun p => Val.vStr p.1))
  | _ => none

/-- A profile record: an insertion-ordered Python dict. -/
abbrev Profile := List (String × Val)

/-- `profile.get(k)` / `k in profile` combined: the value at `k`, if present. -/
def pget (p : Profile) (k : String) : Option Val :=
  (p.find? (fun q => q.1 = k)).map (fun q => q.2)

/-- Whether a value is a Python mapping (`isinstance(v, dict)`). -/
def isDict : Val → Bool
  | .vDict _ => true
  | _ => false

/-- `d.get(k)` on a dict value; `none` when `v` is not a dict or lacks `k`. -/
def dictGet (v : Val) (k : String) : Option Val :=
  match v with
  | .vDict d => (d.find? (fun q => q.1 = k)).map (fun q => q.2)
  | _ => none

/-- Python dict assignment `p[k] = v`: replace in place when the key exists,
append otherwise. -/
def setKey (p : Profile) (k : String) (v : Val) : Profile :=
  if (p.find? (fun q => q.1 = k)).isSome then
    p.map (fun q => if q.1 = k then (k, v) else q)
  else
    p ++ [(k, v)]

/-!
### difflib.SequenceMatcher

`string_similarity` calls `SequenceMatcher(None, a, b).ratio()` from the
Python standard library: the total size `M` of the recursively computed
longest matching blocks, scaled to `2M / (len a + len b)`.  The model below
follows `difflib.find_longest_match` (the dynamic program over `j2len`,
keeping the first block of strictly greatest length in the `i`-ascending,
`j`-ascending scan) with no junk heuristic: the code passes `isjunk=None`
and the autojunk heuristic only alters inputs of 200 or more characters,
which no theorem below exercises.  The matching-block recursion is driven
by a fuel argument large enough (total range size + 1) for every input.
-/

/-- One row of the `find_longest_match` dynamic program: scan the positions
`j` of `b` in `[blo, bhi)`; at a position matching `a[i]` the diagonal run
length is one more than the previous row's value at `j - 1`. Returns the
new row together with the updated (besti, bestj, bestsize). -/
def flmRow (a b : List Char) (i blo bhi : Nat)
    (j2len : List (Nat × Nat)) (best : Nat × Nat × Nat) : List (Nat × Nat) × (Nat × Nat × Nat) :=
  (List.range' blo (bhi - blo)).foldl
    (fun acc j =>
      let (row, bi, bj, bs) := acc
      if a.getD i ' ' = b.getD j ' ' then
        let prev := if j = 0 then 0 else ((j2len.find? (fun q => q.1 = j - 1)).map (fun q => q.2)).getD 0
        let k := prev + 1
        let row' := (j, k) :: row
        if k > bs then (row', i + 1 - k, j + 1 - k, k) else (row', bi, bj, bs)
      else acc)
    (([] : List (Nat × Nat)), best)

/-- `difflib.SequenceMatcher.find_longest_match` on the ranges
`a[alo:ahi]`, `b[blo:bhi]` (no junk): the `(i, j, size)` of the longest
matching block, preferring the earliest `i`, then the earliest `j`. -/
def findLongestMatchRec (a b : List Char) (alo ahi blo bhi : Nat) : Nat × Nat × Nat :=
  ((List.range' alo (ahi - alo)).foldl
    (fun acc i =>
      let (row, best) := acc
      let (row', best') := flmRow a b i blo bhi row best
      (row', best'))
    (([] : List (Nat × Nat)), (alo, blo, 0))).2

/-- Total size of the matching blocks of `a[alo:ahi]` vs `b[blo:bhi]`:
the recursion of `difflib.SequenceMatcher.get_matching_blocks`, driven by
a fuel that the top-level call makes large enough for every input. -/
def matchingTotal (a b : List Char) : Nat → Nat → Nat → Nat → Nat → Nat
  | 0, _, _, _, _ => 0
  | fuel + 1, alo, ahi, blo, bhi =>
    let r := findLongestMatchRec a b alo ahi blo bhi
    let i := r.1
    let j := r.2.1
    let k := r.2.2
    if k = 0 then 0
    else matchingTotal a b fuel alo i blo j + k + matchingTotal a b fuel (i + k) ahi (j + k) bhi

/-- `difflib.SequenceMatcher(None, sa, sb).ratio()`:
`2M / (len sa + len sb)`, and `1` for two empty sequences. -/
def ratio (sa sb : String) : ℚ :=
  let a := sa.toList
  let b := sb.toList
  let la := a.length
  let lb := b.length
  let m := matchingTotal a b (la + lb + 1) 0 la 0 lb
  if la + lb = 0 then 1 else mkRat (2 * (m : Int)) (la + lb)

/-!
### The matcher (`string_similarity`, `best_match`)
-/

/-- A sparse query: the four optional parameters of the search endpoint
(`query = \x7b"name": name, "domain": domain, "phone": phone,
"facebook": facebook\x7d` with `None` for a missing parameter). -/
structure Query where
  name : Option String
  domain : Option String
  phone : Option String
  facebook : Option String

/-- Truthiness of a query field (`query.get(k)`): present and non-empty. -/
def optTruthy : Option String → Bool
  | some s => s ≠ ""
  | none => false

/-- `string_similarity(a, b)`: `0` when either argument is falsy, otherwise
`SequenceMatcher(None, str(a).lower(), str(b).lower()).ratio()`. -/
def string_similarity (a b : Val) : ℚ :=
  if ¬ vTruthy a ∨ ¬ vTruthy b then 0
  else ratio (pyStr a).toLower (pyStr b).toLower

/-- The name-alias fields `best_match` scores. -/
def name_fields : List String :=
  ["company_commercial_name", "company_legal_name", "company_all_available_names",
   "name", "company_name"]

/-- Python `max(xs or [0])` over similarity lists. -/
def maxQ : List ℚ → ℚ
  | [] => 0
  | x :: xs => xs.foldl max x

/-- The name-alias contribution to a profile's score: for each alias field
that is present and truthy on the profile (with a truthy `query.name`),
add `2 * string_similarity(query['name'], profile[k])`. -/
def nameContrib (q : Query) (p : Profile) : ℚ :=
  match q.name with
  | none => 0
  | some qn =>
    if qn = "" then 0
    else
      name_fields.foldl
        (fun s k =>
          match pget p k with
          | some v => if vTruthy v then s + 2 * string_similarity (Val.vStr qn) v else s
          | none => s)
        0

/-- The domain contribution: `2 * string_similarity(query['domain'],
profile['domain'])` when both are present and truthy. -/
def domainContrib (q : Query) (p : Profile) : ℚ :=
  match q.domain with
  | none => 0
  | some qd =>
    if qd = "" then 0
    else
      match pget p "domain" with
      | some v => if vTruthy v then 2 * string_similarity (Val.vStr qd) v else 0
      | none => 0

/-- The phone contribution:
`max([string_similarity(query['phone'], p) for p in profile['phones']] or [0])`
guarded by `query.get('phone') and profile.get('phones')`, inside a
`try`/`except` that turns any exception (for example a truthy,
non-iterable `phones` value) into no contribution. -/
def phoneContrib (q : Query) (p : Profile) : ℚ :=
  match q.phone with
  | none => 0
  | some qp =>
    if qp = "" then 0
    else
      match pget p "phones" with
      | none => 0
      | some pv =>
        if ¬ vTruthy pv then 0
        else
          match pyIter pv with
          | none => 0
          | some l => maxQ (l.map (fun x => string_similarity (Val.vStr qp) x))

/-- The facebook contribution: read `profile.get('social_links', \x7b\x7d)`,
replace a non-mapping value by the empty mapping, take its `facebook` entry
(default `[]`), and when that is truthy add the maximal similarity over it.
Iterating a truthy non-iterable `facebook` entry raises `TypeError`, which
this branch does NOT catch: `none` models the uncaught exception. -/
def fbContrib (q : Query) (p : Profile) : Option ℚ :=
  match q.facebook with
  | none => some 0
  | some qf =>
    if qf = "" then some 0
    else
      let sl0 := (pget p "social_links").getD (Val.vDict [])
      let sl := if isDict sl0 then sl0 else Val.vDict []
      let fb := (dictGet sl "facebook").getD (Val.vList [])
      if ¬ vTruthy fb then some 0
      else
        match pyIter fb with
        | none => none
        | some l => some (maxQ (l.map (fun x => string_similarity (Val.vStr qf) x)))

/-- One profile's score in `best_match`'s loop; `none` when scoring raises.
The four contributions are accumulated in the loop's order; only the
facebook branch can raise. -/
def scoreProfile (q : Query) (p : Profile) : Option ℚ :=
  (fbContrib q p).map (fun f => nameContrib q p + domainContrib q p + phoneContrib q p + f)

/-- The selection loop of `best_match`: running `(best_profile, best_score)`
replaced only on a strictly greater score; an exception while scoring a
profile propagates (`none`) and ends the loop. -/
def bmGo (q : Query) : List Profile → Option Profile × ℚ → Option (Option Profile × ℚ)
  | [], acc => some acc
  | p :: ps, (bp, bs) =>
    match scoreProfile q p with
    | none => none
    | some score => bmGo q ps (if bs < score then (some p, score) else (bp, bs))

/-- `best_match(query, profiles)`: the best `(profile, score)` with the
running best started at `(None, 0)`; `none` models an uncaught exception. -/
def best_match (q : Query) (profiles : List Profile) : Option (Option Profile × ℚ) :=
  bmGo q profiles (none, 0)

/-!
### The query endpoint (`company_search`)
-/

/-- Python `round` to the nearest integer, ties to the even integer. -/
def roundHalfEven (q : ℚ) : Int :=
  let f := q.floor
  let frac := q - mkRat f 1
  if frac < mkRat 1 2 then f
  else if mkRat 1 2 < frac then f + 1
  else if f % 2 = 0 then f else f + 1

/-- `round(score, 3)` on the idealized rational score. -/
def round3 (q : ℚ) : ℚ := mkRat (roundHalfEven (q * 1000)) 1000

/-- The fixed fallback body `\x7b"error": "No match found"\x7d`. -/
def noMatchResponse : Val := Val.vDict [("error", Val.vStr "No match found")]

/-- The body of the `/company/search` handler: build the query dict from the
four optional parameters, run `best_match` over the loaded profiles, attach
`match_score = round(score, 3)` to a truthy returned profile, and return
the profile or the fixed no-match fallback. `none` models an uncaught
exception escaping the handler. -/
def company_search (name domain phone facebook : Option String)
    (PROFILES : List Profile) : Option Val :=
  match best_match ⟨name, domain, phone, facebook⟩ PROFILES with
  | none => none
  | some (profOpt, score) =>
    match profOpt with
    | some p =>
      if ¬ p.isEmpty then
        some (Val.vDict (setKey p "match_score" (Val.vNum (round3 score))))
      else some noMatchResponse
    | none => some noMatchResponse

/-!
### The HTML tree model and `extract_address`

A parsed page is a forest of nodes.  `find` and `find_all` search in
document (pre-)order, `get_text(separator=' ', strip=True)` joins the
non-empty stripped text descendants with single spaces, exactly as
BeautifulSoup does for the calls `extract_address` makes.
-/

/-- A parsed HTML node: a text node or an element with a tag name, an
attribute list and children. -/
inductive Node where
  | text : String → Node
  | element : String → List (String × String) → List Node → Node
deriving Repr

mutual
/-- The text-node descendants of a node, in document order. -/
def textsOf : Node → List String
  | .text s => [s]
  | .element _ _ cs => textsOfList cs

def textsOfList : List Node → List String
  | [] => []
  | n :: ns => textsOf n ++ textsOfList ns
end

/-- `node.get_text(separator=' ', strip=True)`. -/
def getText (n : Node) : String :=
  " ".intercalate (((textsOf n).map String.trim).filter (fun s => s ≠ ""))

/-- The value of an attribute on an element node. -/
def attrOf (n : Node) (key : String) : Option String :=
  match n with
  | .text _ => none
  | .element _ attrs _ => (attrs.find? (fun a => a.1 = key)).map (fun a => a.2)

mutual
/-- `soup.find(name)` on one node: the first element named `name`, in
pre-order (the node itself before its descendants). -/
def findTagN (name : String) : Node → Option Node
  | .text _ => none
  | .element t a cs => if t = name then some (.element t a cs) else findTagL name cs

def findTagL (name : String) : List Node → Option Node
  | [] => none
  | n :: ns =>
    match findTagN name n with
    | some r => some r
    | none => findTagL name ns
end

mutual
/-- `soup.find_all(names)` on one node: every element whose tag is in
`names`, in pre-order. -/
def findAllN (names : List String) : Node → List Node
  | .text _ => []
  | .element t a cs =>
    (if names.contains t then [Node.element t a cs] else []) ++ findAllL names cs

def findAllL (names : List String) : List Node → List Node
  | [] => []
  | n :: ns => findAllN names n ++ findAllL names ns
end

/-- Whether `pat` occurs as a substring of `s` (`re.search` of a literal). -/
def listPrefOf : List Char → List Char → Bool
  | [], _ => true
  | _ :: _, [] => false
  | a :: as, b :: bs => a = b && listPrefOf as bs

def containsSub (s pat : String) : Bool :=
  (List.range (s.toList.length + 1)).any (fun i => listPrefOf pat.toList (s.toList.drop i))

/-- `re.compile(r'(address|location)', re.I).search(v)`: a case-insensitive
search for either alternative anywhere in the attribute value. -/
def addrLocSearch (v : String) : Bool :=
  containsSub v.toLower "address" || containsSub v.toLower "location"

/-- Rule 1 of `extract_address`: the first `footer`'s visible text, accepted
when its length is strictly between 15 and 250. -/
def ruleFooter (soup : List Node) : Option String :=
  match findTagL "footer" soup with
  | none => none
  | some f =>
    let t := getText f
    if 15 < t.length ∧ t.length < 250 then some t else none

/-- Rule 2: the first `address` tag's text, accepted strictly between
10 and 250. -/
def ruleAddrTag (soup : List Node) : Option String :=
  match findTagL "address" soup with
  | none => none
  | some a =>
    let t := getText a
    if 10 < t.length ∧ t.length < 250 then some t else none

/-- Rule 3: scan every `div`/`span` whose `class` attribute matches
`address|location` (case-insensitive) and return the first one whose text
is strictly between 10 and 250 characters. -/
def ruleClassAttr (soup : List Node) : Option String :=
  ((findAllL ["div", "span"] soup).filter
      (fun n =>
        match attrOf n "class" with
        | some c => addrLocSearch c
        | none => false)).findSome?
    (fun n =>
      let t := getText n
      if 10 < t.length ∧ t.length < 250 then some t else none)

/-- Rule 4: as rule 3, matching the `id` attribute instead. -/
def ruleIdAttr (soup : List Node) : Option String :=
  ((findAllL ["div", "span"] soup).filter
      (fun n =>
        match attrOf n "id" with
        | some c => addrLocSearch c
        | none => false)).findSome?
    (fun n =>
      let t := getText n
      if 10 < t.length ∧ t.length < 250 then some t else none)

/-- `extract_address(soup)`: the four rules tried in order, first success
wins, `None` when all fail. -/
def extract_address (soup : List Node) : Option String :=
  match ruleFooter soup with
  | some t => some t
  | none =>
    match ruleAddrTag soup with
    | some t => some t
    | none =>
      match ruleClassAttr soup with
      | some t => some t
      | none => ruleIdAttr soup

/-!
### The scraper (`scrape_site`, `batch_scrape`, `analyze_results`)
-/

/-- Python `str.strip(chars)` for a single character: drop every leading
and trailing occurrence. -/
def pyStripChar (s : String) (c : Char) : String :=
  String.mk (((s.toList.dropWhile (fun x => x = c)).reverse.dropWhile
    (fun x => x = c)).reverse)

/-- `domain.replace('http://', '').replace('https://', '').strip('/')`:
every occurrence of either scheme substring is removed, anywhere in the
string, and slashes are stripped from both ends. -/
def clean_domain_of (domain : String) : String :=
  pyStripChar ((domain.replace "http://" "").replace "https://" "") '/'

/-- The candidate URLs tried for a domain, in the loop's order
(`for base in ['', 'www.']`, https before http). -/
def urls_to_try (domain : String) : List String :=
  ["", "www."].flatMap
    (fun base =>
      ["https://" ++ base ++ clean_domain_of domain,
       "http://" ++ base ++ clean_domain_of domain])

/-- The outcome of one `requests.get` call: a response body, or a raised
exception's message. -/
inductive FetchResult where
  | success : String → FetchResult
  | failure : String → FetchResult
deriving Repr

/-- All (candidateURL, attemptIndex) trials of a domain, in the nested
loops' order: three attempts per candidate URL. -/
def trialsOf (domain : String) : List (String × Nat) :=
  (urls_to_try domain).flatMap (fun u => [(u, 0), (u, 1), (u, 2)])

/-- A trial succeeds when a response was obtained and its body is non-empty
after trimming whitespace. -/
def isGood : FetchResult → Bool
  | .success b => b.trim ≠ ""
  | .failure _ => false

/-- The nested retry loop of `scrape_site`: walk the trials in order
carrying `last_err`; an empty-trimmed body falls through to the next trial,
an exception records its message, the first non-empty body wins. Returns
the winning body (if any) and the final `last_err`. -/
def attemptLoop (fetch : String → Nat → FetchResult) :
    List (String × Nat) → String → Option String × String
  | [], le => (none, le)
  | t :: rest, le =>
    match fetch t.1 t.2 with
    | .success b => if b.trim = "" then attemptLoop fetch rest le else (some b, le)
    | .failure m => attemptLoop fetch rest m

/-- The sequence of exception messages the trials of a run produce, in
order: one entry per trial whose fetch raised. -/
def failMsgs (fetch : String → Nat → FetchResult) (trials : List (String × Nat)) : List String :=
  trials.filterMap
    (fun t =>
      match fetch t.1 t.2 with
      | .failure m => some m
      | .success _ => none)

/-- The enriched record `scrape_site` returns for one domain. -/
structure ScrapedProfile where
  domain : String
  phones : List String
  social_links : List (String × List String)
  address : Option String
  status : String
  error : Option String
deriving Repr

def SCRAPE_CHUNK_SIZE : Nat := 100000

/-- `scrape_site(domain)`, parameterized by the external effects: `fetch`
(the outcome of `requests.get` per candidate URL and attempt), `parse`
(BeautifulSoup) and the two regex/phonenumbers extractors `epn`/`esl`.
On the first successful trial the body is truncated to
`SCRAPE_CHUNK_SIZE` characters, the three extractors run on it and the
`ok` profile is returned at once; on exhaustion the `fail` profile carries
the last error message, defaulting to `"unknown"` when `last_err` is the
empty string. -/
def scrape_site (fetch : String → Nat → FetchResult) (parse : String → List Node)
    (epn : String → List Node → List String)
    (esl : String → List Node → List (String × List String))
    (domain : String) : ScrapedProfile :=
  match attemptLoop fetch (trialsOf domain) "" with
  | (some body, _) =>
    let html := String.mk (body.toList.take SCRAPE_CHUNK_SIZE)
    { domain := domain
      phones := epn html (parse html)
      social_links := esl html (parse html)
      address := extract_address (parse html)
      status := "ok"
      error := none }
  | (none, le) =>
    { domain := domain
      phones := []
      social_links := []
      address := none
      status := "fail"
      error := some (if le = "" then "unknown" else le) }

/-- `batch_scrape(websites)`: one `scrape_site` pipeline per input domain
run on a worker pool, results appended in completion order.  The
nondeterministic completion order is an explicit parameter: a list of
indices into `websites` (a permutation of `range websites.length` for any
real schedule). -/
def batch_scrape (fetch : String → Nat → FetchResult) (parse : String → List Node)
    (epn : String → List Node → List String)
    (esl : String → List Node → List (String × List String))
    (websites : List String) (order : List Nat) : List ScrapedProfile :=
  order.filterMap (fun i => (websites.get? i).map (scrape_site fetch parse epn esl))

/-- The four coverage statistics of `analyze_results`. -/
structure Stats where
  coverage : ℚ
  phone_fill : ℚ
  social_fill : ℚ
  addr_fill : ℚ
deriving Repr

/-- Truthiness of a result's `address` field (`if r['address']`). -/
def addrTruthy : Option String → Bool
  | some s => s ≠ ""
  | none => false

/-- `analyze_results(results)`: each of the four counts divided by
`len(results)` with no emptiness guard; `none` models the
`ZeroDivisionError` raised on an empty list. -/
def analyze_results (results : List ScrapedProfile) : Option Stats :=
  let n := results.length
  if n = 0 then none
  else
    some
      { coverage := mkRat (results.countP (fun r => r.status = "ok") : Int) n
        phone_fill := mkRat (results.countP (fun r => ¬ r.phones.isEmpty) : Int) n
        social_fill := mkRat (results.countP (fun r => ¬ r.social_links.isEmpty) : Int) n
        addr_fill := mkRat (results.countP (fun r => addrTruthy r.address) : Int) n }

/-!
### Spec-worded variants, for refinement comparisons

These two definitions follow the specification's words rather than the
code; they exist only to be compared against the embedded code above.
-/

/-- Modelled from the spec: "Strip any leading `http://`/`https://` and
trailing `/`" — remove one scheme at the start of the string only, and
slashes at the end only. Compare `clean_domain_of`, which is the code's
`str.replace` of every occurrence plus a two-sided strip. -/
def specCleanDomain (domain : String) : String :=
  let d :=
    if "http://".isPrefixOf domain then String.mk (domain.toList.drop 7)
    else if "https://".isPrefixOf domain then String.mk (domain.toList.drop 8)
    else domain
  String.mk ((d.toList.reverse.dropWhile (fun c => c = '/')).reverse)

/-- The candidate list as the spec words it, built on `specCleanDomain`. -/
def specUrls (domain : String) : List String :=
  ["https://" ++ specCleanDomain domain,
   "http://" ++ specCleanDomain domain,
   "https://www." ++ specCleanDomain domain,
   "http://www." ++ specCleanDomain domain]

/-- Modelled from the spec: rule 3 as the claim words it — "the first
block-level element whose class attribute matches `address|location`",
accepted only if its text length is strictly between 10 and 250; a first
matching element whose text fails the bound makes the rule fail. Compare
`ruleClassAttr`, where the code scans every matching element. -/
def specRuleClassAttr (soup : List Node) : Option String :=
  match
    (findAllL ["div", "span"] soup).find?
      (fun n =>
        match attrOf n "class" with
        | some c => addrLocSearch c
        | none => false)
  with
  | none => none
  | some n =>
    let t := getText n
    if 10 < t.length ∧ t.length < 250 then some t else none

/-- Modelled from the spec: rule 4 (id attribute) as the claim words it. -/
def specRuleIdAttr (soup : List Node) : Option String :=
  match
    (findAllL ["div", "span"] soup).find?
      (fun n =>
        match attrOf n "id" with
        | some c => addrLocSearch c
        | none => false)
  with
  | none => none
  | some n =>
    let t := getText n
    if 10 < t.length ∧ t.length < 250 then some t else none

/-- `extract_address` as the claim words it: rules 3 and 4 consider only
the first attribute-matching element. -/
def specExtractAddress (soup : List Node) : Option String :=
  match ruleFooter soup with
  | some t => some t
  | none =>
    match ruleAddrTag soup with
    | some t => some t
    | none =>
      match specRuleClassAttr soup with
      | some t => some t
      | none => specRuleIdAttr soup

/-!
### Concrete fixtures

The profile pair of the repository's own unit test
(`test_best_match_exact_and_fuzzy`), and small inputs used by the
counterexamples and witnesses.
-/

def abcProfile : Profile :=
  [("domain", Val.vStr "abc.com"), ("phones", Val.vList [Val.vStr "+1"]),
   ("company_commercial_name", Val.vStr "Acme"), ("social_links", Val.vDict []),
   ("company_legal_name", Val.vStr "Acme Inc.")]

def xyzProfile : Profile :=
  [("domain", Val.vStr "xyz.com"), ("phones", Val.vList [Val.vStr "+2"]),
   ("company_commercial_name", Val.vStr "Xyz"), ("social_links", Val.vDict []),
   ("company_legal_name", Val.vStr "Xyz LLC")]

/-- Two profiles scoring identically on a domain query: only the field
`tag` differs, so they demonstrate the tie rule. -/
def tieP1 : Profile := [("domain", Val.vStr "abc.com"), ("tag", Val.vStr "first")]

def tieP2 : Profile := [("domain", Val.vStr "abc.com"), ("tag", Val.vStr "second")]

/-- A profile whose `social_links` IS a mapping but holds a truthy
non-iterable `facebook` entry: scoring it with a facebook query raises. -/
def badSocialProfile : Profile :=
  [("domain", Val.vStr "d.com"), ("social_links", Val.vDict [("facebook", Val.vNum 5)])]

/-- A profile with a two-element phone list. -/
def phonesProfile : Profile :=
  [("phones", Val.vList [Val.vStr "+1", Val.vStr "+2"])]

/-- A soup with two class-matching divs: the first one's text fails the
10–250 bound, the second one's text passes it. -/
def soupTwoDivs : List Node :=
  [Node.element "div" [("class", "address")] [Node.text "short"],
   Node.element "div" [("class", "address")] [Node.text "1600 Amphitheatre Parkway, Mountain View"]]

/-- A soup with one footer holding a 28-character text. -/
def soupFooter : List Node :=
  [Node.element "footer" [] [Node.text "123 Main Street, Springfield"]]

/-- The three-result mock of the repository's `test_analyze_results`. -/
def mockResults : List ScrapedProfile :=
  [{ domain := "a", phones := ["+14085551234"], social_links := [("facebook", ["fb"])],
     address := some "addr", status := "ok", error := none },
   { domain := "b", phones := [], social_links := [], address := none,
     status := "fail", error := some "x" },
   { domain := "c", phones := [], social_links := [], address := none,
     status := "ok", error := none }]

/-!
### Helper lemmas
-/

/-- A query with no populated field scores `0` against every profile:
every contribution branch is guarded on the query field's presence. -/
lemma scoreProfile_allNone (p : Profile) :
    scoreProfile ⟨none, none, none, none⟩ p = some 0 := by
  simp [scoreProfile, nameContrib, domainContrib, phoneContrib, fbContrib]

/-- The selection loop keeps its accumulator across profiles that do not
beat the running best score. -/
lemma bmGo_keep (q : Query) (l : List Profile) (bp : Option Profile) (bs : ℚ)
    (h : ∀ p ∈ l, ∃ s, scoreProfile q p = some s ∧ s ≤ bs) :
    bmGo q l (bp, bs) = some (bp, bs) := by
  induction l with
  | nil => rfl
  | cons p ps ih =>
    obtain ⟨s, hs, hle⟩ := h p (List.mem_cons_self p ps)
    simp only [bmGo, hs, if_neg (not_lt.mpr hle)]
    exact ih (fun r hr => h r (List.mem_cons_of_mem _ hr))

/-- The selection loop returns the first profile whose score strictly
exceeds everything before it and is not strictly exceeded after it. -/
lemma bmGo_first (q : Query) (p : Profile) (l₂ : List Profile) (s : ℚ)
    (hp : scoreProfile q p = some s)
    (h₂ : ∀ r ∈ l₂, ∃ s', scoreProfile q r = some s' ∧ s' ≤ s) :
    ∀ l₁ : List Profile, (∀ r ∈ l₁, ∃ s', scoreProfile q r = some s' ∧ s' < s) →
      ∀ (bp : Option Profile) (bs : ℚ), bs < s →
        bmGo q (l₁ ++ p :: l₂) (bp, bs) = some (some p, s)
  | [], _, bp, bs, hbs => by
    simp only [List.nil_append, bmGo, hp, if_pos hbs]
    exact bmGo_keep q l₂ (some p) s h₂
  | r :: l₁, h₁, bp, bs, hbs => by
    obtain ⟨s', hs', hlt⟩ := h₁ r (List.mem_cons_self _ _)
    simp only [List.cons_append, bmGo, hs']
    by_cases hc : bs < s'
    · rw [if_pos hc]
      exact bmGo_first q p l₂ s hp h₂ l₁ (fun x hx => h₁ x (List.mem_cons_of_mem _ hx)) _ s' hlt
    · rw [if_neg hc]
      exact bmGo_first q p l₂ s hp h₂ l₁ (fun x hx => h₁ x (List.mem_cons_of_mem _ hx)) _ bs hbs

/-- When every profile scores `0`, the running best is never replaced. -/
lemma best_match_all_zero (q : Query) (ps : List Profile)
    (h : ∀ p ∈ ps, scoreProfile q p = some 0) :
    best_match q ps = some (none, 0) :=
  bmGo_keep q ps none 0 (fun p hp => ⟨0, h p hp, le_refl 0⟩)

/-- The retry loop finds a body exactly when some trial fetches a response
whose trimmed body is non-empty. -/
lemma attemptLoop_isSome_iff (fetch : String → Nat → FetchResult) :
    ∀ (trials : List (String × Nat)) (le : String),
      (attemptLoop fetch trials le).1.isSome = true ↔
        ∃ t ∈ trials, isGood (fetch t.1 t.2) = true
  | [], le => by simp [attemptLoop]
  | t :: rest, le => by
    cases hf : fetch t.1 t.2 with
    | success b =>
      by_cases hb : b.trim = ""
      · rw [show attemptLoop fetch (t :: rest) le = attemptLoop fetch rest le by
            simp [attemptLoop, hf, hb]]
        rw [attemptLoop_isSome_iff fetch rest le]
        constructor
        · rintro ⟨u, hu, hg⟩
          exact ⟨u, List.mem_cons_of_mem _ hu, hg⟩
        · rintro ⟨u, hu, hg⟩
          rcases List.mem_cons.mp hu with h | h
          · exfalso
            rw [h, hf] at hg
            simp [isGood, hb] at hg
          · exact ⟨u, h, hg⟩
      · rw [show attemptLoop fetch (t :: rest) le = (some b, le) by
            simp [attemptLoop, hf, hb]]
        simp only [Option.isSome_some, true_iff]
        exact ⟨t, List.mem_cons_self _ _, by simp [isGood, hf, hb]⟩
    | failure m =>
      rw [show attemptLoop fetch (t :: rest) le = attemptLoop fetch rest m by
          simp [attemptLoop, hf]]
      rw [attemptLoop_isSome_iff fetch rest m]
      constructor
      · rintro ⟨u, hu, hg⟩
        exact ⟨u, List.mem_cons_of_mem _ hu, hg⟩
      · rintro ⟨u, hu, hg⟩
        rcases List.mem_cons.mp hu with h | h
        · exfalso
          rw [h, hf] at hg
          simp [isGood] at hg
        · exact ⟨u, h, hg⟩

/-- When no trial succeeds, the loop exhausts every trial and ends with the
message of the last raising trial (or the initial `last_err`). -/
lemma attemptLoop_exhausted (fetch : String → Nat → FetchResult) :
    ∀ (trials : List (String × Nat)) (le : String),
      (∀ t ∈ trials, isGood (fetch t.1 t.2) = false) →
      attemptLoop fetch trials le = (none, (failMsgs fetch trials).getLastD le)
  | [], le, _ => by simp [attemptLoop, failMsgs]
  | t :: rest, le, h => by
    have hrest : ∀ u ∈ rest, isGood (fetch u.1 u.2) = false :=
      fun u hu => h u (List.mem_cons_of_mem _ hu)
    cases hf : fetch t.1 t.2 with
    | success b =>
      have hb : b.trim = "" := by
        have := h t (List.mem_cons_self _ _)
        rw [hf] at this
        simpa [isGood] using this
      rw [show attemptLoop fetch (t :: rest) le = attemptLoop fetch rest le by
          simp [attemptLoop, hf, hb]]
      rw [attemptLoop_exhausted fetch rest le hrest]
      simp [failMsgs, hf]
    | failure m =>
      rw [show attemptLoop fetch (t :: rest) le = attemptLoop fetch rest m by
          simp [attemptLoop, hf]]
      rw [attemptLoop_exhausted fetch rest m hrest]
      have hm : failMsgs fetch (t :: rest) = m :: failMsgs fetch rest := by
        simp [failMsgs, List.filterMap_cons, hf]
      rw [hm, List.getLastD_cons]

/-- `scrape_site` reports `ok` exactly when the retry loop found a body. -/
lemma scrape_site_status_ok_iff (fetch : String → Nat → FetchResult)
    (parse : String → List Node) (epn : String → List Node → List String)
    (esl : String → List Node → List (String × List String)) (domain : String) :
    (scrape_site fetch parse epn esl domain).status = "ok" ↔
      (attemptLoop fetch (trialsOf domain) "").1.isSome = true := by
  unfold scrape_site
  cases h : attemptLoop fetch (trialsOf domain) "" with
  | mk fst snd =>
    cases fst with
    | none => simp
    | some b => simp

/-- Every `scrape_site` result has status `ok` or `fail`. -/
lemma scrape_site_status_cases (fetch : String → Nat → FetchResult)
    (parse : String → List Node) (epn : String → List Node → List String)
    (esl : String → List Node → List (String × List String)) (domain : String) :
    (scrape_site fetch parse epn esl domain).status = "ok" ∨
      (scrape_site fetch parse epn esl domain).status = "fail" := by
  unfold scrape_site
  cases h : attemptLoop fetch (trialsOf domain) "" with
  | mk fst snd =>
    cases fst with
    | none => right; rfl
    | some b => left; rfl

/-- The scraped profile always carries its input domain. -/
lemma scrape_site_domain (fetch : String → Nat → FetchResult)
    (parse : String → List Node) (epn : String → List Node → List String)
    (esl : String → List Node → List (String × List String)) (domain : String) :
    (scrape_site fetch parse epn esl domain).domain = domain := by
  unfold scrape_site
  cases h : attemptLoop fetch (trialsOf domain) "" with
  | mk fst snd =>
    cases fst with
    | none => rfl
    | some b => rfl

/-- `filterMap` is a `map` when the function is total on the list. -/
lemma filterMap_eq_map_of_all {α β : Type} (f : α → Option β) (g : α → β) :
    ∀ l : List α, (∀ a ∈ l, f a = some (g a)) → l.filterMap f = l.map g
  | [], _ => rfl
  | a :: l, h => by
    rw [List.filterMap_cons, h a (List.mem_cons_self _ _), List.map_cons,
      filterMap_eq_map_of_all f g l (fun x hx => h x (List.mem_cons_of_mem _ hx))]

/-- A found mapping value comes from some member of the list. -/
lemma findSome?_imp {α β : Type} (f : α → Option β) :
    ∀ (l : List α) (b : β), l.findSome? f = some b → ∃ a ∈ l, f a = some b
  | [], b, h => by simp [List.findSome?] at h
  | a :: l, b, h => by
    rw [List.findSome?_cons] at h
    cases hf : f a with
    | some c =>
      rw [hf] at h
      exact ⟨a, List.mem_cons_self _ _, hf.trans h⟩
    | none =>
      rw [hf] at h
      obtain ⟨x, hx, hfx⟩ := findSome?_imp f l b h
      exact ⟨x, List.mem_cons_of_mem _ hx, hfx⟩

/-- After dropping every leading `c`, the head is not `c`. -/
lemma head?_dropWhile_ne (c : Char) :
    ∀ l : List Char, (l.dropWhile (fun x => x = c)).head? ≠ some c
  | [] => by simp [List.dropWhile]
  | a :: l => by
    by_cases ha : a = c
    · rw [show ((a :: l).dropWhile (fun x => x = c)) = l.dropWhile (fun x => x = c) by
          simp [List.dropWhile, ha]]
      exact head?_dropWhile_ne c l
    · rw [show ((a :: l).dropWhile (fun x => x = c)) = a :: l by
          simp [List.dropWhile, ha]]
      simp [ha]

/-- The bound-checking acceptance step of the address rules. -/
lemma ifBound_eq_some {lo hi : Nat} {t a : String}
    (h : (if lo < t.length ∧ t.length < hi then some t else none) = some a) :
    a = t ∧ lo < a.length ∧ a.length < hi := by
  by_cases hc : lo < t.length ∧ t.length < hi
  · rw [if_pos hc] at h
    cases h
    exact ⟨rfl, hc⟩
  · rw [if_neg hc] at h
    cases h

/-- Reading a list by every index in order is the list itself. -/
lemma range_map_getD {α β : Type} (g : α → β) (d : α) :
    ∀ l : List α, (List.range l.length).map (fun i => g (l.getD i d)) = l.map g
  | [] => rfl
  | a :: l => by
    rw [List.length_cons, List.range_succ_eq_map, List.map_cons, List.map_map]
    simp only [Function.comp_def, Nat.succ_eq_add_one, List.getD_cons_zero,
      List.getD_cons_succ]
    rw [range_map_getD g d l, List.map_cons]

/-- Dropping a prefix does not change a non-empty remainder's last element. -/
lemma dropWhile_getLast?_of_ne_nil {α : Type} (p : α → Bool) :
    ∀ l : List α, l.dropWhile p ≠ [] → (l.dropWhile p).getLast? = l.getLast?
  | [], h => absurd rfl h
  | a :: l, h => by
    by_cases ha : p a = true
    · rw [show (a :: l).dropWhile p = l.dropWhile p from by simp [List.dropWhile_cons, ha]]
        at h ⊢
      rw [dropWhile_getLast?_of_ne_nil p l h]
      cases l with
      | nil => exact absurd rfl h
      | cons b bs => rw [List.getLast?_cons_cons]
    · rw [show (a :: l).dropWhile p = a :: l from by simp [List.dropWhile_cons, ha]]

/-- The two-sided strip leaves no leading stripped character. -/
lemma pyStripChar_head (s : String) (c : Char) :
    (pyStripChar s c).toList.head? ≠ some c := by
  show ((((s.toList.dropWhile (fun x => x = c)).reverse.dropWhile
      (fun x => x = c)).reverse).head? ≠ some c)
  rw [List.head?_reverse]
  by_cases hB : (s.toList.dropWhile (fun x => x = c)).reverse.dropWhile (fun x => x = c) = []
  · rw [hB]
    simp
  · rw [dropWhile_getLast?_of_ne_nil _ _ hB, List.getLast?_reverse]
    exact head?_dropWhile_ne c s.toList

/-- The two-sided strip leaves no trailing stripped character. -/
lemma pyStripChar_getLast (s : String) (c : Char) :
    (pyStripChar s c).toList.getLast? ≠ some c := by
  show ((((s.toList.dropWhile (fun x => x = c)).reverse.dropWhile
      (fun x => x = c)).reverse).getLast? ≠ some c)
  rw [List.getLast?_reverse]
  exact head?_dropWhile_ne c _

/-- The footer rule only returns texts strictly between 15 and 250. -/
lemma ruleFooter_bound (soup : List Node) (a : String) :
    ruleFooter soup = some a → 15 < a.length ∧ a.length < 250 := by
  intro h
  cases hft : findTagL "footer" soup with
  | none =>
    simp only [ruleFooter, hft] at h
    cases h
  | some f =>
    simp only [ruleFooter, hft] at h
    obtain ⟨rfl, h1, h2⟩ := ifBound_eq_some h
    exact ⟨h1, h2⟩

/-- The address-tag rule only returns texts strictly between 10 and 250. -/
lemma ruleAddrTag_bound (soup : List Node) (a : String) :
    ruleAddrTag soup = some a → 10 < a.length ∧ a.length < 250 := by
  intro h
  cases hft : findTagL "address" soup with
  | none =>
    simp only [ruleAddrTag, hft] at h
    cases h
  | some f =>
    simp only [ruleAddrTag, hft] at h
    obtain ⟨rfl, h1, h2⟩ := ifBound_eq_some h
    exact ⟨h1, h2⟩

/-- The class-attribute rule only returns texts strictly between 10
and 250. -/
lemma ruleClassAttr_bound (soup : List Node) (a : String) :
    ruleClassAttr soup = some a → 10 < a.length ∧ a.length < 250 := by
  intro h
  obtain ⟨n, _, hn⟩ := findSome?_imp _ _ _ h
  obtain ⟨rfl, h1, h2⟩ := ifBound_eq_some hn
  exact ⟨h1, h2⟩

/-- The id-attribute rule only returns texts strictly between 10 and 250. -/
lemma ruleIdAttr_bound (soup : List Node) (a : String) :
    ruleIdAttr soup = some a → 10 < a.length ∧ a.length < 250 := by
  intro h
  obtain ⟨n, _, hn⟩ := findSome?_imp _ _ _ h
  obtain ⟨rfl, h1, h2⟩ := ifBound_eq_some hn
  exact ⟨h1, h2⟩

/-!
### The claims
-/

/-- C1. On the unit test's profile pair, `best_match` with query
`domain = "abc.com"` does return the `abc.com` profile, but its raw score
for the exact single-field domain match is `2`, and the endpoint reports
`match_score = round(2, 3) = 2.0` with no 50× display scaling anywhere:
the repository's own tests assert `100.0` (`2 × 50`), which the code does
not produce. -/
theorem c1_exact_domain_match_reports_raw_score :
    best_match ⟨none, some "abc.com", none, none⟩ [abcProfile, xyzProfile] =
      some (some abcProfile, 2) ∧
    company_search none (some "abc.com") none none [abcProfile, xyzProfile] =
      some (Val.vDict (abcProfile ++ [("match_score", Val.vNum 2)])) ∧
    (2 : ℚ) * 50 = 100 ∧ (2 : ℚ) ≠ 100 :=
  ⟨by with_unfolding_all rfl, by with_unfolding_all rfl, by norm_num, by norm_num⟩

/-- C2. The selection loop starts its running best at score `0` and
replaces it only on a strictly greater score: the all-`None` query scores
`0` everywhere and returns no profile; any query scoring `0` against every
profile returns no profile; and the returned profile is the first one in
iteration order whose score strictly exceeds everything before it and is
not strictly exceeded later — in particular ties keep the
earliest-iterated profile. -/
theorem c2_strict_greater_selection_keeps_earliest :
    ∀ (q : Query) (ps l₁ l₂ : List Profile) (p : Profile) (s : ℚ),
      best_match ⟨none, none, none, none⟩ ps = some (none, 0) ∧
      ((∀ r ∈ ps, scoreProfile q r = some 0) → best_match q ps = some (none, 0)) ∧
      (ps = l₁ ++ p :: l₂ → scoreProfile q p = some s → 0 < s →
        (∀ r ∈ l₁, ∃ s', scoreProfile q r = some s' ∧ s' < s) →
        (∀ r ∈ l₂, ∃ s', scoreProfile q r = some s' ∧ s' ≤ s) →
        best_match q ps = some (some p, s)) := by
  intro q ps l₁ l₂ p s
  refine ⟨best_match_all_zero _ ps (fun r _ => scoreProfile_allNone r),
    best_match_all_zero q ps, ?_⟩
  intro hps hp hs h₁ h₂
  rw [hps]
  exact bmGo_first q p l₂ s hp h₂ l₁ h₁ none 0 hs

/-- C2, instantiated: two profiles tie at score `2` on an exact domain
query and the earliest one wins. -/
theorem c2_witness :
    best_match ⟨none, some "abc.com", none, none⟩ [tieP1, tieP2] = some (some tieP1, 2) :=
  (c2_strict_greater_selection_keeps_earliest ⟨none, some "abc.com", none, none⟩
      [tieP1, tieP2] [] [tieP2] tieP1 2).2.2 rfl (by with_unfolding_all rfl) (by norm_num)
    (fun r hr => absurd hr (List.not_mem_nil r))
    (fun r hr => by
      rw [List.mem_singleton] at hr
      subst hr
      exact ⟨2, by with_unfolding_all rfl, le_refl 2⟩)

/-- C5 counterexample. `social_links` here IS a mapping — so the code's
non-mapping guard does not replace it — but its `facebook` entry is the
truthy non-iterable `5`: iterating it raises an uncaught `TypeError`, so
`best_match` aborts (`none`) instead of scoring the malformed field as
zero, refuting "any malformed … secondary field … contributes zero to the
score instead of raising or aborting". -/
theorem c5_counterexample :
    best_match ⟨none, none, none, some "x"⟩ [badSocialProfile] = none ∧
    isDict (Val.vDict [("facebook", Val.vNum 5)]) = true ∧
    vTruthy (Val.vNum 5) = true ∧ pyIter (Val.vNum 5) = none :=
  ⟨by with_unfolding_all rfl, rfl, by decide, rfl⟩

/-- C5, amended. With `query.phone` present and a non-empty phone list the
phone contribution is the maximum similarity over the list (best-of, not a
sum); an exception inside the phone computation (a truthy non-iterable
`phones`) contributes zero through the `try`/`except`; a NON-MAPPING
`social_links` is replaced by an empty mapping and contributes zero; but
an exception in the unguarded facebook branch aborts the profile's scoring
(and, by C5's counterexample, `best_match` itself). -/
theorem c5_phone_best_of_and_malformed_fields :
    ∀ (q : Query) (p : Profile) (qp : String) (l : List Val) (pv sv : Val),
      (q.phone = some qp → qp ≠ "" → pget p "phones" = some (Val.vList l) → l ≠ [] →
        phoneContrib q p = maxQ (l.map (fun x => string_similarity (Val.vStr qp) x))) ∧
      (q.phone = some qp → qp ≠ "" → pget p "phones" = some pv → vTruthy pv = true →
        pyIter pv = none → phoneContrib q p = 0) ∧
      (pget p "social_links" = some sv → isDict sv = false → fbContrib q p = some 0) ∧
      (fbContrib q p = none → scoreProfile q p = none) := by
  intro q p qp l pv sv
  refine ⟨?_, ?_, ?_, ?_⟩
  · intro hq hqp hpg hl
    cases l with
    | nil => exact absurd rfl hl
    | cons a as =>
      simp only [phoneContrib, hq, hpg]
      rw [if_neg hqp]
      rfl
  · intro hq hqp hpg htr hiter
    simp only [phoneContrib, hq, hpg, hiter, htr]
    rw [if_neg hqp]
    simp
  · intro hsv hdict
    simp only [fbContrib, hsv]
    cases q.facebook with
    | none => rfl
    | some qf =>
      by_cases hch : qf = ""
      · simp [hch]
      · simp [hch, hdict, dictGet, vTruthy]
  · intro hfb
    simp [scoreProfile, hfb]

/-- C5, instantiated: the best-of phone contribution on a two-phone
profile. -/
theorem c5_witness :
    phoneContrib ⟨none, none, some "+2", none⟩ phonesProfile =
      maxQ ([Val.vStr "+1", Val.vStr "+2"].map
        (fun x => string_similarity (Val.vStr "+2") x)) :=
  (c5_phone_best_of_and_malformed_fields ⟨none, none, some "+2", none⟩ phonesProfile "+2"
      [Val.vStr "+1", Val.vStr "+2"] Val.vNull Val.vNull).1 rfl (by decide) rfl
    (by simp)

/-- C3. For every fetch environment and every domain, `scrape_site`
reports `status = "ok"` precisely when some (candidateURL, attempt) trial
fetched a response whose body is non-empty after trimming whitespace; in
particular `ok` implies such a winning non-empty body exists. -/
theorem c3_status_ok_iff_nonempty_body :
    ∀ (fetch : String → Nat → FetchResult) (parse : String → List Node)
      (epn : String → List Node → List String)
      (esl : String → List Node → List (String × List String)) (domain : String),
      (scrape_site fetch parse epn esl domain).status = "ok" ↔
        ∃ t ∈ trialsOf domain,
          ∃ b, fetch t.1 t.2 = FetchResult.success b ∧ b.trim ≠ "" := by
  intro fetch parse epn esl domain
  rw [scrape_site_status_ok_iff, attemptLoop_isSome_iff]
  constructor
  · rintro ⟨t, ht, hg⟩
    refine ⟨t, ht, ?_⟩
    cases hf : fetch t.1 t.2 with
    | success b =>
      refine ⟨b, rfl, ?_⟩
      rw [hf] at hg
      simpa [isGood] using hg
    | failure m =>
      rw [hf] at hg
      simp [isGood] at hg
  · rintro ⟨t, ht, b, hb, hne⟩
    exact ⟨t, ht, by simp [isGood, hb, hne]⟩

/-- C3, instantiated: a fetch whose third candidate's first attempt is the
only non-empty body yields `ok`. -/
theorem c3_witness :
    (scrape_site
        (fun u a =>
          if u = "https://www.d.com" ∧ a = 0 then FetchResult.success "<html>hi</html>"
          else FetchResult.failure "boom")
        (fun _ => []) (fun _ _ => []) (fun _ _ => []) "d.com").status = "ok" :=
  (c3_status_ok_iff_nonempty_body
      (fun u a =>
        if u = "https://www.d.com" ∧ a = 0 then FetchResult.success "<html>hi</html>"
        else FetchResult.failure "boom")
      (fun _ => []) (fun _ _ => []) (fun _ _ => []) "d.com").mpr
    ⟨("https://www.d.com", 0), by with_unfolding_all decide,
      "<html>hi</html>", by with_unfolding_all rfl, by with_unfolding_all decide⟩

/-- C4 counterexample. A fetch that always raises with the EMPTY message:
the run exhausts all 12 trials, exceptions were raised (the captured
message list is non-empty) and the last captured message is `""`, yet the
profile's error field says `"unknown"`, not the last captured message —
refuting the claim that `"unknown"` appears only when no exception was
ever raised. -/
theorem c4_counterexample :
    (scrape_site (fun _ _ => FetchResult.failure "") (fun _ => []) (fun _ _ => [])
        (fun _ _ => []) "d.com").error = some "unknown" ∧
    failMsgs (fun _ _ => FetchResult.failure "") (trialsOf "d.com") ≠ [] ∧
    (failMsgs (fun _ _ => FetchResult.failure "") (trialsOf "d.com")).getLastD "x"
      = "" ∧
    ("unknown" : String) ≠ "" :=
  ⟨by with_unfolding_all rfl, by with_unfolding_all decide,
    by with_unfolding_all rfl, by decide⟩

/-- C4, amended. When every trial is exhausted without success the profile
has `status = "fail"` and its error field carries the last captured
exception message when that message is non-empty, and `"unknown"`
otherwise — both when no exception was ever raised and when the last
captured message was the empty string. -/
theorem c4_exhaustion_last_error_or_unknown :
    ∀ (fetch : String → Nat → FetchResult) (parse : String → List Node)
      (epn : String → List Node → List String)
      (esl : String → List Node → List (String × List String)) (domain : String),
      (∀ t ∈ trialsOf domain, isGood (fetch t.1 t.2) = false) →
      (scrape_site fetch parse epn esl domain).status = "fail" ∧
      (scrape_site fetch parse epn esl domain).error =
        some
          (if (failMsgs fetch (trialsOf domain)).getLastD "" = "" then "unknown"
           else (failMsgs fetch (trialsOf domain)).getLastD "") := by
  intro fetch parse epn esl domain h
  unfold scrape_site
  rw [attemptLoop_exhausted fetch (trialsOf domain) "" h]
  exact ⟨rfl, rfl⟩

/-- C4, instantiated: exhaustion under a fetch that always raises
`"boom"` reports `fail` with error `"boom"`. -/
theorem c4_witness :
    (scrape_site (fun _ _ => FetchResult.failure "boom") (fun _ => []) (fun _ _ => [])
        (fun _ _ => []) "d.com").status = "fail" ∧
    (scrape_site (fun _ _ => FetchResult.failure "boom") (fun _ => []) (fun _ _ => [])
        (fun _ _ => []) "d.com").error = some "boom" := by
  have h := c4_exhaustion_last_error_or_unknown (fun _ _ => FetchResult.failure "boom")
    (fun _ => []) (fun _ _ => []) (fun _ _ => []) "d.com" (by with_unfolding_all decide)
  refine ⟨h.1, ?_⟩
  rw [h.2]
  with_unfolding_all rfl

/-- C6 counterexample. On `"x.com/a=http://y"` the code's `str.replace`
removes the `http://` occurring in the MIDDLE of the string, so the
emitted candidates differ from the spec-worded resolver that strips only
a leading scheme: the claim's "strips any leading http:// or https://
scheme and any trailing slash" does not describe the code on this input. -/
theorem c6_counterexample :
    urls_to_try "x.com/a=http://y" ≠ specUrls "x.com/a=http://y" ∧
    urls_to_try "x.com/a=http://y" =
      ["https://x.com/a=y", "http://x.com/a=y",
       "https://www.x.com/a=y", "http://www.x.com/a=y"] ∧
    specUrls "x.com/a=http://y" =
      ["https://x.com/a=http://y", "http://x.com/a=http://y",
       "https://www.x.com/a=http://y", "http://www.x.com/a=http://y"] :=
  ⟨by with_unfolding_all decide, by with_unfolding_all rfl, by with_unfolding_all rfl⟩

/-- C6, amended. The resolver removes EVERY occurrence of `http://` and
`https://` anywhere in the raw domain and strips slashes from BOTH ends
(so the cleaned domain neither starts nor ends with `/`), then
deterministically emits exactly 4 candidates in the fixed priority order
https-bare, http-bare, https-www, http-www. -/
theorem c6_four_candidates_fixed_order :
    ∀ domain : String,
      urls_to_try domain =
        ["https://" ++ clean_domain_of domain,
         "http://" ++ clean_domain_of domain,
         "https://www." ++ clean_domain_of domain,
         "http://www." ++ clean_domain_of domain] ∧
      (urls_to_try domain).length = 4 ∧
      clean_domain_of domain =
        pyStripChar ((domain.replace "http://" "").replace "https://" "") '/' ∧
      (clean_domain_of domain).toList.head? ≠ some '/' ∧
      (clean_domain_of domain).toList.getLast? ≠ some '/' := by
  intro domain
  exact ⟨rfl, rfl, rfl, pyStripChar_head _ '/', pyStripChar_getLast _ '/'⟩

/-- C7 counterexample. A soup whose FIRST class-matching div has a 5-char
text (outside 10–250) and whose second has a 40-char text: the code scans
past the first match and returns the second text, while the claim's
"first block-level element whose class attribute matches, accepted only
if strictly between 10 and 250" yields no address at all. -/
theorem c7_counterexample :
    extract_address soupTwoDivs = some "1600 Amphitheatre Parkway, Mountain View" ∧
    specExtractAddress soupTwoDivs = none ∧
    some "1600 Amphitheatre Parkway, Mountain View" ≠ (none : Option String) :=
  ⟨by with_unfolding_all rfl, by with_unfolding_all rfl, by decide⟩

/-- C7, amended. `extract_address` tries its four rules in order and
returns the first success, with the class rule (and the id rule) scanning
EVERY matching `div`/`span` and returning the first whose text passes the
bound, not only the first matching element; each rule only accepts texts
strictly within its bound pair (15–250 for the footer rule, 10–250
otherwise), so any returned address lies strictly within the producing
rule's bounds, and no rule succeeding leaves the address absent. -/
theorem c7_rule_order_and_bounds :
    ∀ (soup : List Node) (a : String),
      (ruleFooter soup = some a → 15 < a.length ∧ a.length < 250) ∧
      (ruleAddrTag soup = some a → 10 < a.length ∧ a.length < 250) ∧
      (ruleClassAttr soup = some a → 10 < a.length ∧ a.length < 250) ∧
      (ruleIdAttr soup = some a → 10 < a.length ∧ a.length < 250) ∧
      (ruleFooter soup = some a → extract_address soup = some a) ∧
      (ruleFooter soup = none → ruleAddrTag soup = some a →
        extract_address soup = some a) ∧
      (ruleFooter soup = none → ruleAddrTag soup = none →
        ruleClassAttr soup = some a → extract_address soup = some a) ∧
      (ruleFooter soup = none → ruleAddrTag soup = none →
        ruleClassAttr soup = none → extract_address soup = ruleIdAttr soup) ∧
      (extract_address soup = some a → 10 < a.length ∧ a.length < 250) := by
  intro soup a
  refine ⟨ruleFooter_bound soup a, ruleAddrTag_bound soup a, ruleClassAttr_bound soup a,
    ruleIdAttr_bound soup a, ?_, ?_, ?_, ?_, ?_⟩
  · intro h
    rw [extract_address, h]
  · intro h1 h2
    rw [extract_address, h1, h2]
  · intro h1 h2 h3
    rw [extract_address, h1, h2, h3]
  · intro h1 h2 h3
    rw [extract_address, h1, h2, h3]
  · intro h
    rw [extract_address] at h
    cases hf : ruleFooter soup with
    | some t =>
      rw [hf] at h
      cases h
      have hb := ruleFooter_bound soup a hf
      exact ⟨Nat.lt_trans (by norm_num) hb.1, hb.2⟩
    | none =>
      rw [hf] at h
      cases hat : ruleAddrTag soup with
      | some t =>
        rw [hat] at h
        cases h
        exact ruleAddrTag_bound soup a hat
      | none =>
        rw [hat] at h
        cases hcl : ruleClassAttr soup with
        | some t =>
          rw [hcl] at h
          cases h
          exact ruleClassAttr_bound soup a hcl
        | none =>
          rw [hcl] at h
          exact ruleIdAttr_bound soup a h

/-- C7, instantiated: the footer rule accepts a 28-character footer text
and `extract_address` returns it. -/
theorem c7_witness :
    extract_address soupFooter = some "123 Main Street, Springfield" ∧
    15 < ("123 Main Street, Springfield").length ∧
    ("123 Main Street, Springfield").length < 250 := by
  have h := (c7_rule_order_and_bounds soupFooter "123 Main Street, Springfield").2.2.2.2.1
    (by with_unfolding_all rfl)
  exact ⟨h, by decide, by decide⟩

/-- C8. With the nondeterministic completion order given as any
permutation of the input indices, `batch_scrape` returns exactly one
result per input domain — a permutation of the per-domain `scrape_site`
results, hence exactly N of them — each carrying its own domain and each
independently `ok` or `fail`; no domain's failure removes a result. -/
theorem c8_one_result_per_domain :
    ∀ (fetch : String → Nat → FetchResult) (parse : String → List Node)
      (epn : String → List Node → List String)
      (esl : String → List Node → List (String × List String))
      (websites : List String) (order : List Nat),
      order.Perm (List.range websites.length) →
      (batch_scrape fetch parse epn esl websites order).length = websites.length ∧
      (batch_scrape fetch parse epn esl websites order).Perm
        (websites.map (scrape_site fetch parse epn esl)) ∧
      (∀ w, (scrape_site fetch parse epn esl w).domain = w) ∧
      (∀ r ∈ batch_scrape fetch parse epn esl websites order,
        r.status = "ok" ∨ r.status = "fail") := by
  intro fetch parse epn esl websites order hperm
  have hall : ∀ i ∈ List.range websites.length,
      (websites.get? i).map (scrape_site fetch parse epn esl) =
        some (scrape_site fetch parse epn esl (websites.getD i "")) := by
    intro i hi
    rw [List.mem_range] at hi
    rw [show websites.getD i "" = websites.get ⟨i, hi⟩ by
        simp [List.getD, List.getElem?_eq_getElem hi]]
    rw [List.get?_eq_get hi]
    rfl
  have hmap : (List.range websites.length).filterMap
      (fun i => (websites.get? i).map (scrape_site fetch parse epn esl)) =
      websites.map (scrape_site fetch parse epn esl) := by
    rw [filterMap_eq_map_of_all _
      (fun i => scrape_site fetch parse epn esl (websites.getD i "")) _ hall]
    exact range_map_getD _ "" websites
  have hperm2 : (batch_scrape fetch parse epn esl websites order).Perm
      (websites.map (scrape_site fetch parse epn esl)) := by
    rw [batch_scrape, ← hmap]
    exact hperm.filterMap _
  refine ⟨?_, hperm2, scrape_site_domain fetch parse epn esl, ?_⟩
  · rw [hperm2.length_eq, List.length_map]
  · intro r hr
    obtain ⟨w, _, hw⟩ := List.mem_map.mp (hperm2.mem_iff.mp hr)
    rw [← hw]
    exact scrape_site_status_cases fetch parse epn esl w

/-- C8, instantiated: two domains scraped in reversed completion order
still yield exactly two results. -/
theorem c8_witness :
    (batch_scrape (fun _ _ => FetchResult.failure "x") (fun _ => []) (fun _ _ => [])
        (fun _ _ => []) ["a.com", "b.com"] [1, 0]).length = 2 :=
  (c8_one_result_per_domain (fun _ _ => FetchResult.failure "x") (fun _ => [])
      (fun _ _ => []) (fun _ _ => []) ["a.com", "b.com"] [1, 0] (by decide)).1

/-- C9. The handler returns the fixed `\x7b"error": "No match found"\x7d`
fallback whenever the matcher returns no profile — and in particular a
request with NO recognized query parameter at all is served exactly that
HTTP-200 fallback rather than being rejected (the repository's own test
asserts a 400 rejection, which the code does not implement). -/
theorem c9_no_param_request_served_fallback :
    ∀ (ps : List Profile) (n d ph fb : Option String) (s : ℚ),
      company_search none none none none ps = some noMatchResponse ∧
      (best_match ⟨n, d, ph, fb⟩ ps = some (none, s) →
        company_search n d ph fb ps = some noMatchResponse) := by
  intro ps n d ph fb s
  constructor
  · simp only [company_search,
      best_match_all_zero ⟨none, none, none, none⟩ ps (fun r _ => scoreProfile_allNone r)]
  · intro h
    simp only [company_search, h]

/-- C10. `analyze_results` divides by the result count with no guard: on
any non-empty list the four statistics are the exact count/length ratios,
and on the empty list the division by zero raises (`none`) instead of
returning statistics. -/
theorem c10_ratios_and_unguarded_empty_division :
    ∀ results : List ScrapedProfile,
      analyze_results [] = none ∧
      (results ≠ [] →
        analyze_results results = some
          { coverage :=
              mkRat (results.countP (fun r => r.status = "ok") : Int) results.length
            phone_fill :=
              mkRat (results.countP (fun r => ¬ r.phones.isEmpty) : Int) results.length
            social_fill :=
              mkRat (results.countP (fun r => ¬ r.social_links.isEmpty) : Int)
                results.length
            addr_fill :=
              mkRat (results.countP (fun r => addrTruthy r.address) : Int)
                results.length }) := by
  intro results
  refine ⟨rfl, ?_⟩
  intro h
  simp only [analyze_results]
  rw [if_neg (fun hl => h (List.length_eq_zero.mp hl))]

/-- C10, instantiated: the repository's own three-result mock yields
coverage 2/3 and the three fill ratios 1/3. -/
theorem c10_witness :
    analyze_results mockResults =
      some { coverage := mkRat 2 3, phone_fill := mkRat 1 3, social_fill := mkRat 1 3,
             addr_fill := mkRat 1 3 } := by
  have h := (c10_ratios_and_unguarded_empty_division mockResults).2
    (by exact List.cons_ne_nil _ _)
  rw [h]
  with_unfolding_all rfl

end WebScraper
